import Mathlib

/-! A shallow embedding of the memory service in `app/main.py`: the context
formatter (`create_prompt_context`, `process_data_with_zep_context`), the
startup connection loop (`connect_with_retry`), and the two request handlers
(`add_memory`, `search_memory`).  External collaborators (the Gemini
text-generation call, the mem0 store, the psycopg2 connection) are passed in
as oracle functions describing their outcomes; a Python dict with string keys
is an ordered association list. -/

/-- A Python dict with string keys, in insertion order.  Values are kept as
the text of their Python `repr`, opaque to the formatter. -/
abbrev Bundle := List (String × String)

/-- Python `d[k]` as a lookup: the value at key `k`, if the key is present. -/
def dictGet (d : Bundle) (k : String) : Option String :=
  match d with
  | [] => none
  | (k1, v) :: t => if k = k1 then some v else dictGet t k

/-- Python `d[k] = v`: overwrite the value in place when the key exists,
append the new pair otherwise. -/
def dictSet (d : Bundle) (k v : String) : Bundle :=
  if (dictGet d k).isSome then
    d.map (fun p => if p.1 = k then (k, v) else p)
  else d ++ [(k, v)]

/-- Python `str(d)` for a dict: `{'k1': v1, 'k2': v2}` (the values are stored
as their `repr` text already). -/
def pyReprDict (d : Bundle) : String :=
  "\x7b" ++ String.intercalate ", " (d.map fun p => "'" ++ p.1 ++ "': " ++ p.2) ++ "\x7d"

def promptHead : String :=
  "\n    You are an expert at extracting key details about a user given a set of raw memories. \n    You will be provided JSON data containing `results` and `relations` arrays.\n\n    For the `results` array, which represents facts, each item contains:\n    - An ID.\n    - `memory` text.\n    - Scores (ignore).\n    - `created_at` timestamp, which may be in any time zone.\n    - An optional `updated_at` timestamp, which may be in any time zone.\n\n    For each fact, you MUST extract the text from the `memory` property and include a date range showing its validity. \n    The date range MUST be in UTC (Coordinated Universal Time) and in the format: YYYY-MM-DDTHH:MM:SS+00:00\n\n    - If the `updated_at` is null, then the end date is 'present'.\n    - Otherwise, if the `updated_at` field exists, the end date MUST be taken from this field and MUST be converted to UTC.\n    - The start date should be taken from `created_at` and must also be converted to UTC.\n\n    The `relations` array contains relationships between the memories, however for this summary, you should not include any data about the relationships.\n\n    You must format the output as follows:\n\n    FACTS and ENTITIES represent relevant context to the current conversation.\n\n    # These are the most relevant facts and their valid date ranges\n\n    # format: FACT (Date range: from - to)\n\n    <FACTS>\n    -  [fact] ([date_from] - [date_to])\n    </FACTS>\n\n    # These are the most relevant entities\n\n    # ENTITY_NAME: entity summary\n\n    <ENTITIES>\n    - [entity_name]: [entity_summary]\n    </ENTITIES>\n\n    You MUST provide the facts and entities sections in the correct format. If there are no facts or no entities then the respective section should not be included.\n\n    The data is provided below:\n\n    "

def promptTail : String :=
  "\n    "

def needleDateFormat : String :=
  "YYYY-MM-DDTHH:MM:SS+00:00"

def needlePresent : String :=
  "If the `updated_at` is null, then the end date is 'present'."

def needleNoRelations : String :=
  "you should not include any data about the relationships."

def needleOmitEmpty : String :=
  "If there are no facts or no entities then the respective section should not be included."

def promptChunk0 : String :=
  "\n    You are an expert at extracting key details about a user given a set of raw memories. \n    You will be provided JSON data containing `results` and `relations` arrays.\n\n    For the `results` array, which represents facts, each item contains:\n    - An ID.\n    - `memory` text.\n    - Scores (ignore).\n    - `created_at` timestamp, which may be in any time zone.\n    - An optional `updated_at` timestamp, which may be in any time zone.\n\n    For each fact, you MUST extract the text from the `memory` property and include a date range showing its validity. \n    The date range MUST be in UTC (Coordinated Universal Time) and in the format: "

def promptChunk1 : String :=
  "\n\n    - "

def promptChunk2 : String :=
  "\n    - Otherwise, if the `updated_at` field exists, the end date MUST be taken from this field and MUST be converted to UTC.\n    - The start date should be taken from `created_at` and must also be converted to UTC.\n\n    The `relations` array contains relationships between the memories, however for this summary, "

def promptChunk3 : String :=
  "\n\n    You must format the output as follows:\n\n    FACTS and ENTITIES represent relevant context to the current conversation.\n\n    # These are the most relevant facts and their valid date ranges\n\n    # format: FACT (Date range: from - to)\n\n    <FACTS>\n    -  [fact] ([date_from] - [date_to])\n    </FACTS>\n\n    # These are the most relevant entities\n\n    # ENTITY_NAME: entity summary\n\n    <ENTITIES>\n    - [entity_name]: [entity_summary]\n    </ENTITIES>\n\n    You MUST provide the facts and entities sections in the correct format. "

def promptChunk4 : String :=
  "\n\n    The data is provided below:\n\n    "

/-- The full prompt `create_prompt_context` builds around the serialized data:
the f-string of `main.py` lines 80-125, `promptHead` being everything before
the interpolated `{data}` and `promptTail` everything after it. -/
def mkPrompt (s : String) : String :=
  promptHead ++ s ++ promptTail

/-- Outcome of one `model.generate_content(prompt)` call: the call raises an
exception, or returns a response whose `.text` is `None` or a string. -/
inductive GenOutcome where
  | exn (msg : String)
  | response (text : Option String)

/-- The `create_prompt_context` of `main.py` lines 65-133: build the prompt,
call the model; on a truthy (non-empty) response text return it stripped, on a
falsy text or any exception return `None`. -/
def create_prompt_context (gen : String → GenOutcome) (data : Bundle) : Option String :=
  match gen (mkPrompt (pyReprDict data)) with
  | GenOutcome.exn _ => none
  | GenOutcome.response none => none
  | GenOutcome.response (some t) => if t = "" then none else some t.trim

/-- The `process_data_with_zep_context` of `main.py` lines 135-148: set
`data["context_string"]` when the produced context is truthy, return the data
either way. -/
def process_data_with_zep_context (gen : String → GenOutcome) (data : Bundle) : Bundle :=
  match create_prompt_context gen data with
  | some c => if c = "" then data else dictSet data "context_string" c
  | none => data

/-- A FastAPI `HTTPException(status_code, detail)`. -/
structure HTTPException where
  status_code : Nat
  detail : String
  deriving DecidableEq

/-- Starlette renders `str(HTTPException(s, d))` as `"s: d"`. -/
def HTTPException.toStr (e : HTTPException) : String :=
  toString e.status_code ++ ": " ++ e.detail

/-- Body of `POST /add_memory/`. -/
structure AddMemoryRequest where
  user_id : String
  text : String

/-- Body of `POST /search_memory/`. -/
structure SearchMemoryRequest where
  user_id : String
  query : String

/-- The `add_memory` handler of `main.py` lines 182-194.  `memAdd` gives the
outcome of `memory.add(text, user_id=user_id)`: an exception message, or an id
list whose Python truthiness is its non-emptiness.  The inner
`raise HTTPException` sits inside the `try`, so the handler's own
`except Exception` catches it and wraps `str(e)`, which Starlette renders as
`"status_code: detail"`. -/
def add_memory (memAdd : String → String → Except String (List String))
    (request : AddMemoryRequest) : Except HTTPException Bundle :=
  match memAdd request.text request.user_id with
  | Except.error e => Except.error ⟨500, "Error processing memory event: " ++ e⟩
  | Except.ok ids =>
    if ids.isEmpty then
      Except.error ⟨500, "Error processing memory event: "
        ++ HTTPException.toStr ⟨500, "Error adding/updating memory: mem0 returned no ids"⟩⟩
    else Except.ok [("message", "Memory operation completed!")]

/-- The `search_memory` handler of `main.py` lines 196-206.  `memSearch` gives
the outcome of `memory.search(query, user_id)`.  Reading
`processed_data['context_string']` when the key is missing raises
`KeyError('context_string')`, whose `str(e)` is the repr `'context_string'`,
caught by the blanket `except`. -/
def search_memory (gen : String → GenOutcome)
    (memSearch : String → String → Except String Bundle)
    (request : SearchMemoryRequest) : Except HTTPException Bundle :=
  match memSearch request.query request.user_id with
  | Except.error e => Except.error ⟨500, "Error searching memory: " ++ e⟩
  | Except.ok results =>
    match dictGet (process_data_with_zep_context gen results) "context_string" with
    | some c => Except.ok [("query", request.query), ("results", c)]
    | none => Except.error ⟨500, "Error searching memory: 'context_string'"⟩

/-- Observable trace of one `connect_with_retry` run: how many connection
attempts were made, the recorded `time.sleep` durations in order, and the
result (`Except.error` carries the raised exception's message). -/
structure RetryTrace (Conn : Type) where
  attempts : Nat
  sleeps : List Nat
  outcome : Except String Conn

/-- The `while retries < max_retries` loop of `connect_with_retry` (`main.py`
lines 150-167).  `attempt i` is the outcome of the `psycopg2.connect` call on
the i-th try (0-based): a connection, or the message of a
`psycopg2.OperationalError`.  `fuel` is `max_retries - retries`, so `fuel = 0`
is exactly the loop guard `retries < max_retries` failing; each failed try
logs and then sleeps `retry_delay` before the guard is tested again. -/
def connectLoop {Conn : Type} (attempt : Nat → Except String Conn)
    (max_retries retry_delay : Nat) :
    Nat → Nat → List Nat → RetryTrace Conn
  | 0, retries, sleeps =>
    ⟨retries, sleeps,
      Except.error ("Failed to connect to database after " ++ toString max_retries ++ " retries")⟩
  | fuel + 1, retries, sleeps =>
    match attempt retries with
    | Except.ok c => ⟨retries + 1, sleeps, Except.ok c⟩
    | Except.error _ =>
      connectLoop attempt max_retries retry_delay fuel (retries + 1) (sleeps ++ [retry_delay])

/-- The `connect_with_retry` of `main.py` lines 150-167, with `retries = 0`
and an empty sleep record at entry. -/
def connect_with_retry {Conn : Type} (attempt : Nat → Except String Conn)
    (max_retries retry_delay : Nat) : RetryTrace Conn :=
  connectLoop attempt max_retries retry_delay max_retries 0 []

/-! ## The connection loop -/

/-- When every try up to the fuel fails, the loop makes one attempt and one
sleep per unit of fuel and ends in the exhaustion error. -/
theorem connectLoop_all_fail {Conn : Type} (attempt : Nat → Except String Conn)
    (max_retries retry_delay : Nat) (fuel : Nat) :
    ∀ (retries : Nat) (sleeps : List Nat),
      (∀ i, retries ≤ i → i < retries + fuel → ∃ e, attempt i = Except.error e) →
      connectLoop attempt max_retries retry_delay fuel retries sleeps =
        ⟨retries + fuel, sleeps ++ List.replicate fuel retry_delay,
          Except.error ("Failed to connect to database after "
            ++ toString max_retries ++ " retries")⟩ := by
  induction fuel with
  | zero => intro retries sleeps _; simp [connectLoop]
  | succ n ih =>
    intro retries sleeps h
    obtain ⟨e, he⟩ := h retries le_rfl (by omega)
    have step := ih (retries + 1) (sleeps ++ [retry_delay])
      (fun i h1 h2 => h i (by omega) (by omega))
    simp only [connectLoop, he]
    rw [step]
    simp only [RetryTrace.mk.injEq, List.append_assoc, List.singleton_append,
      List.replicate_succ, and_true]
    omega

/-- When the first `k` tries fail and try `k` (0-based) succeeds within the
fuel, the loop returns that try's connection after `k` sleeps. -/
theorem connectLoop_succeeds {Conn : Type} (attempt : Nat → Except String Conn)
    (max_retries retry_delay : Nat) (c : Conn) :
    ∀ (k fuel retries : Nat) (sleeps : List Nat),
      (∀ i, retries ≤ i → i < retries + k → ∃ e, attempt i = Except.error e) →
      attempt (retries + k) = Except.ok c →
      k < fuel →
      connectLoop attempt max_retries retry_delay fuel retries sleeps =
        ⟨retries + k + 1, sleeps ++ List.replicate k retry_delay, Except.ok c⟩ := by
  intro k
  induction k with
  | zero =>
    intro fuel retries sleeps _ hok hfuel
    match fuel, hfuel with
    | n + 1, _ =>
      simp only [Nat.add_zero] at hok
      simp [connectLoop, hok]
  | succ m ih =>
    intro fuel retries sleeps h hok hfuel
    match fuel, hfuel with
    | n + 1, _ =>
      obtain ⟨e, he⟩ := h retries le_rfl (by omega)
      have hok1 : attempt (retries + 1 + m) = Except.ok c := by
        have : retries + 1 + m = retries + (m + 1) := by omega
        rw [this]; exact hok
      have step := ih n (retries + 1) (sleeps ++ [retry_delay])
        (fun i h1 h2 => h i (by omega) (by omega)) hok1 (by omega)
      simp only [connectLoop, he]
      rw [step]
      simp only [RetryTrace.mk.injEq, List.append_assoc, List.singleton_append,
        List.replicate_succ, and_true]
      omega

/-- C3: for every `max_retries ≥ 1`, if the connection attempt fails with a
recoverable `OperationalError` on every try, `connect_with_retry` performs
exactly `max_retries` attempts, returns no connection, and raises the error
`"Failed to connect to database after <max_retries> retries"`, whose message
states the attempt count. -/
theorem connect_with_retry_exhaustion (Conn : Type) (attempt : Nat → Except String Conn)
    (max_retries retry_delay : Nat) (hmax : 1 ≤ max_retries)
    (hfail : ∀ i, i < max_retries → ∃ e, attempt i = Except.error e) :
    connect_with_retry attempt max_retries retry_delay =
      ⟨max_retries, List.replicate max_retries retry_delay,
        Except.error ("Failed to connect to database after "
          ++ toString max_retries ++ " retries")⟩ := by
  unfold connect_with_retry
  have := connectLoop_all_fail attempt max_retries retry_delay max_retries 0 []
    (fun i _ h2 => hfail i (by omega))
  simpa using this

/-- Witness for C3 at `max_retries = 2`: a function that always fails gives a
fatal error after exactly 2 attempts, with no connection returned. -/
theorem connect_with_retry_exhaustion_witness :
    connect_with_retry (fun _ => (Except.error "connection refused" : Except String Nat)) 2 0 =
      ⟨2, List.replicate 2 0,
        Except.error ("Failed to connect to database after " ++ toString 2 ++ " retries")⟩ :=
  connect_with_retry_exhaustion Nat _ 2 0 (by omega)
    (fun _ _ => ⟨"connection refused", rfl⟩)

/-- C4: if the attempt fails on the first `k` tries (0-based indices
`0, …, k - 1`) and succeeds on 0-based try `k` — the claim's 1-based try
`k + 1` — within `max_retries`, then `connect_with_retry` returns that try's
connection after exactly `k` recorded waits, each of the fixed `retry_delay`
(no backoff growth). -/
theorem connect_with_retry_success_after_failures (Conn : Type)
    (attempt : Nat → Except String Conn) (max_retries retry_delay k : Nat) (c : Conn)
    (hfail : ∀ i, i < k → ∃ e, attempt i = Except.error e)
    (hok : attempt k = Except.ok c) (hk : k < max_retries) :
    connect_with_retry attempt max_retries retry_delay =
      ⟨k + 1, List.replicate k retry_delay, Except.ok c⟩ := by
  unfold connect_with_retry
  have := connectLoop_succeeds attempt max_retries retry_delay c k max_retries 0 []
    (fun i _ h2 => hfail i (by omega)) (by simpa using hok) hk
  simpa using this

/-- Witness for C4 with `max_retries = 3` and two initial failures: the third
attempt's connection is returned after exactly two waits of `retry_delay = 5`. -/
theorem connect_with_retry_success_after_failures_witness :
    connect_with_retry
        (fun i => if i < 2 then (Except.error "connection refused" : Except String Nat)
          else Except.ok 7) 3 5 =
      ⟨3, List.replicate 2 5, Except.ok 7⟩ :=
  connect_with_retry_success_after_failures Nat _ 3 5 2 7
    (fun i hi => ⟨"connection refused", by simp [hi]⟩) (by simp) (by omega)

/-- C9: `connect_with_retry` with `max_retries = 0` raises the exhaustion
error (stating 0 retries) immediately: no connection attempt is made and no
wait is recorded. -/
theorem connect_with_retry_zero_max_retries (Conn : Type)
    (attempt : Nat → Except String Conn) (retry_delay : Nat) :
    connect_with_retry attempt 0 retry_delay =
      ⟨0, [], Except.error "Failed to connect to database after 0 retries"⟩ := rfl

/-- C10: a wait of `retry_delay` is recorded after every failed attempt, the
final one included: when all `max_retries` attempts fail, exactly
`max_retries` waits occur — not `max_retries - 1` — before the fatal error. -/
theorem connect_with_retry_sleeps_after_every_failure (Conn : Type)
    (attempt : Nat → Except String Conn) (max_retries retry_delay : Nat)
    (hfail : ∀ i, i < max_retries → ∃ e, attempt i = Except.error e) :
    (connect_with_retry attempt max_retries retry_delay).sleeps =
      List.replicate max_retries retry_delay ∧
    (connect_with_retry attempt max_retries retry_delay).sleeps.length = max_retries ∧
    (connect_with_retry attempt max_retries retry_delay).outcome =
      Except.error ("Failed to connect to database after "
        ++ toString max_retries ++ " retries") := by
  unfold connect_with_retry
  have := connectLoop_all_fail attempt max_retries retry_delay max_retries 0 []
    (fun i _ h2 => hfail i (by omega))
  simp [this]

/-- Witness for C10 at `max_retries = 3`, `retry_delay = 7`: three waits of 7
are recorded, not two. -/
theorem connect_with_retry_sleeps_after_every_failure_witness :
    (connect_with_retry (fun _ => (Except.error "timeout" : Except String Nat)) 3 7).sleeps =
      List.replicate 3 7 ∧
    (connect_with_retry (fun _ => (Except.error "timeout" : Except String Nat)) 3 7).sleeps.length = 3 ∧
    (connect_with_retry (fun _ => (Except.error "timeout" : Except String Nat)) 3 7).outcome =
      Except.error ("Failed to connect to database after " ++ toString 3 ++ " retries") :=
  connect_with_retry_sleeps_after_every_failure Nat _ 3 7
    (fun _ _ => ⟨"timeout", rfl⟩)

/-! ## Dict lemmas -/

/-- Unfolding `dictGet` at a cons cell. -/
theorem dictGet_cons (a b : String) (t : Bundle) (k : String) :
    dictGet ((a, b) :: t) k = if k = a then some b else dictGet t k := rfl

/-- Overwriting the value at `k` makes `k` map to the new value, provided the
key was present. -/
theorem dictGet_map_overwrite (d : Bundle) (k v : String)
    (h : (dictGet d k).isSome = true) :
    dictGet (d.map (fun p => if p.1 = k then (k, v) else p)) k = some v := by
  induction d with
  | nil => simp [dictGet] at h
  | cons p t ih =>
    obtain ⟨k1, v1⟩ := p
    simp only [List.map_cons]
    by_cases hk : k1 = k
    · rw [if_pos hk]
      rw [dictGet_cons, if_pos rfl]
    · rw [if_neg hk]
      have hk1 : ¬ (k = k1) := fun hh => hk hh.symm
      have h1 : (dictGet t k).isSome = true := by
        rw [dictGet_cons, if_neg hk1] at h; exact h
      rw [dictGet_cons, if_neg hk1]
      exact ih h1

/-- Overwriting the value at `k` leaves every other key's value unchanged. -/
theorem dictGet_map_overwrite_ne (d : Bundle) (k k1 v : String) (h : k1 ≠ k) :
    dictGet (d.map (fun p => if p.1 = k then (k, v) else p)) k1 = dictGet d k1 := by
  induction d with
  | nil => simp [dictGet]
  | cons p t ih =>
    obtain ⟨a, b⟩ := p
    simp only [List.map_cons]
    by_cases ha : a = k
    · rw [if_pos ha]
      have hk1a : ¬ (k1 = a) := ha ▸ h
      rw [dictGet_cons, if_neg h, dictGet_cons, if_neg hk1a]
      exact ih
    · rw [if_neg ha]
      by_cases hk1 : k1 = a
      · rw [dictGet_cons, if_pos hk1, dictGet_cons, if_pos hk1]
      · rw [dictGet_cons, if_neg hk1, dictGet_cons, if_neg hk1]
        exact ih

/-- Lookup distributes over append: the left dict wins when it has the key. -/
theorem dictGet_append (d1 d2 : Bundle) (k : String) :
    dictGet (d1 ++ d2) k =
      match dictGet d1 k with
      | some v => some v
      | none => dictGet d2 k := by
  induction d1 with
  | nil => simp [dictGet]
  | cons p t ih =>
    obtain ⟨a, b⟩ := p
    by_cases hk : k = a
    · simp only [List.cons_append, dictGet_cons, if_pos hk]
    · simp only [List.cons_append, dictGet_cons, if_neg hk]
      exact ih

/-- `dictSet` sets the key. -/
theorem dictGet_dictSet_self (d : Bundle) (k v : String) :
    dictGet (dictSet d k v) k = some v := by
  unfold dictSet
  by_cases h : (dictGet d k).isSome = true
  · rw [if_pos h]
    exact dictGet_map_overwrite d k v h
  · rw [if_neg h]
    rw [dictGet_append]
    have hnone : dictGet d k = none := by
      cases hc : dictGet d k with
      | none => rfl
      | some w => rw [hc] at h; simp at h
    rw [hnone]
    simp [dictGet]

/-- `dictSet` leaves every other key's value unchanged. -/
theorem dictGet_dictSet_ne (d : Bundle) (k k1 v : String) (h : k1 ≠ k) :
    dictGet (dictSet d k v) k1 = dictGet d k1 := by
  unfold dictSet
  by_cases hs : (dictGet d k).isSome = true
  · rw [if_pos hs]
    exact dictGet_map_overwrite_ne d k k1 v h
  · rw [if_neg hs]
    rw [dictGet_append]
    cases hc : dictGet d k1 with
    | some w => simp
    | none => simp [dictGet, h]

/-! ## The context formatter -/

/-- C1: for every bundle, if the external text-generation call raises any
exception or returns an absent (`None`) or empty response text, then
`create_prompt_context` returns `None`, `process_data_with_zep_context`
returns the bundle untouched — in particular a bundle without a
`context_string` key stays without one — and no exception escapes the
formatter (its result is a plain `Option`/`Bundle`, never an error). -/
theorem create_prompt_context_failure_degrades (gen : String → GenOutcome) (data : Bundle)
    (hfail : (∃ m, gen (mkPrompt (pyReprDict data)) = GenOutcome.exn m) ∨
      gen (mkPrompt (pyReprDict data)) = GenOutcome.response none ∨
      gen (mkPrompt (pyReprDict data)) = GenOutcome.response (some "")) :
    create_prompt_context gen data = none ∧
    process_data_with_zep_context gen data = data ∧
    (dictGet data "context_string" = none →
      dictGet (process_data_with_zep_context gen data) "context_string" = none) := by
  have hnone : create_prompt_context gen data = none := by
    unfold create_prompt_context
    rcases hfail with ⟨m, hm⟩ | hm | hm <;> rw [hm] <;> simp
  have hproc : process_data_with_zep_context gen data = data := by
    unfold process_data_with_zep_context
    rw [hnone]
  exact ⟨hnone, hproc, fun hmiss => by rw [hproc]; exact hmiss⟩

/-- Witness for C1: a generation call that raises leaves the bundle alone. -/
theorem create_prompt_context_failure_degrades_witness :
    create_prompt_context (fun _ => GenOutcome.exn "boom") [("results", "[]")] = none ∧
    process_data_with_zep_context (fun _ => GenOutcome.exn "boom") [("results", "[]")] =
      [("results", "[]")] ∧
    (dictGet [("results", "[]")] "context_string" = none →
      dictGet (process_data_with_zep_context (fun _ => GenOutcome.exn "boom")
        [("results", "[]")]) "context_string" = none) :=
  create_prompt_context_failure_degrades (fun _ => GenOutcome.exn "boom")
    [("results", "[]")] (Or.inl ⟨"boom", rfl⟩)

/-- C5: `process_data_with_zep_context` returns the same bundle with every
pre-existing key's value unchanged; when formatting succeeds (a truthy
context) the only modification is setting the `context_string` key to the
produced context, and when formatting fails (no context, or a context that
strips to the empty string) the bundle comes back completely unmodified. -/
theorem process_data_with_zep_context_frame (gen : String → GenOutcome) (data : Bundle) :
    (∀ k, k ≠ "context_string" →
      dictGet (process_data_with_zep_context gen data) k = dictGet data k) ∧
    (∀ c, create_prompt_context gen data = some c → c ≠ "" →
      process_data_with_zep_context gen data = dictSet data "context_string" c ∧
      dictGet (process_data_with_zep_context gen data) "context_string" = some c) ∧
    ((create_prompt_context gen data = none ∨ create_prompt_context gen data = some "") →
      process_data_with_zep_context gen data = data) := by
  cases hc : create_prompt_context gen data with
  | none =>
    have hproc : process_data_with_zep_context gen data = data := by
      unfold process_data_with_zep_context; rw [hc]
    refine ⟨fun k _ => by rw [hproc], fun c hsome => by simp at hsome, fun _ => hproc⟩
  | some c =>
    by_cases hcempty : c = ""
    · subst hcempty
      have hproc : process_data_with_zep_context gen data = data := by
        unfold process_data_with_zep_context; rw [hc]; simp
      refine ⟨fun k _ => by rw [hproc], ?_, fun _ => hproc⟩
      intro c1 hsome hne
      exact absurd (Option.some.inj hsome).symm hne
    · have hproc : process_data_with_zep_context gen data =
          dictSet data "context_string" c := by
        unfold process_data_with_zep_context; rw [hc]; simp [hcempty]
      refine ⟨?_, ?_, ?_⟩
      · intro k hk
        rw [hproc]
        exact dictGet_dictSet_ne data "context_string" k c hk
      · intro c1 hsome _
        obtain rfl := Option.some.inj hsome
        exact ⟨hproc, by rw [hproc]; exact dictGet_dictSet_self data "context_string" c⟩
      · rintro (hbad | hbad)
        · exact absurd hbad (by simp)
        · exact absurd (Option.some.inj hbad) hcempty

/-! ## The request handlers -/

/-- C2: when the store search succeeds but the formatter attached no
`context_string` to the processed bundle, `search_memory` answers HTTP 500
with an error detail (the wrapped `KeyError`), and never a success response
with a defaulted or empty `results` field. -/
theorem search_memory_formatter_failure_is_500 (gen : String → GenOutcome)
    (memSearch : String → String → Except String Bundle)
    (request : SearchMemoryRequest) (b : Bundle)
    (hok : memSearch request.query request.user_id = Except.ok b)
    (hmiss : dictGet (process_data_with_zep_context gen b) "context_string" = none) :
    search_memory gen memSearch request =
      Except.error ⟨500, "Error searching memory: 'context_string'"⟩ ∧
    ∀ resp, search_memory gen memSearch request ≠ Except.ok resp := by
  have h : search_memory gen memSearch request =
      Except.error ⟨500, "Error searching memory: 'context_string'"⟩ := by
    unfold search_memory
    simp only [hok, hmiss]
  exact ⟨h, fun resp hcontra => by rw [h] at hcontra; exact Except.noConfusion hcontra⟩

/-- Witness for C2: a store hit plus a raising generation call yields the 500
with the wrapped `KeyError`, not a success. -/
theorem search_memory_formatter_failure_is_500_witness :
    search_memory (fun _ => GenOutcome.exn "boom")
        (fun _ _ => Except.ok [("results", "[]")]) ⟨"u1", "q1"⟩ =
      Except.error ⟨500, "Error searching memory: 'context_string'"⟩ ∧
    ∀ resp, search_memory (fun _ => GenOutcome.exn "boom")
        (fun _ _ => Except.ok [("results", "[]")]) ⟨"u1", "q1"⟩ ≠ Except.ok resp :=
  search_memory_formatter_failure_is_500 (fun _ => GenOutcome.exn "boom")
    (fun _ _ => Except.ok [("results", "[]")]) ⟨"u1", "q1"⟩ [("results", "[]")] rfl rfl

/-- C8: when the store's add operation returns a falsy (empty) id value
without raising, `add_memory` answers HTTP 500; the detail carries
`"mem0 returned no ids"` (wrapped by the outer handler, which catches the
inner `HTTPException` and stringifies it), and the success message is never
returned. -/
theorem add_memory_no_ids_is_500 (memAdd : String → String → Except String (List String))
    (request : AddMemoryRequest)
    (h : memAdd request.text request.user_id = Except.ok []) :
    add_memory memAdd request =
      Except.error ⟨500,
        "Error processing memory event: 500: Error adding/updating memory: mem0 returned no ids"⟩ ∧
    List.IsInfix "mem0 returned no ids".toList
      "Error processing memory event: 500: Error adding/updating memory: mem0 returned no ids".toList ∧
    ∀ resp, add_memory memAdd request ≠ Except.ok resp := by
  have herr : add_memory memAdd request =
      Except.error ⟨500,
        "Error processing memory event: 500: Error adding/updating memory: mem0 returned no ids"⟩ := by
    unfold add_memory
    rw [h]
    rfl
  refine ⟨herr, ⟨"Error processing memory event: 500: Error adding/updating memory: ".toList, [], by decide⟩, ?_⟩
  exact fun resp hcontra => by rw [herr] at hcontra; exact Except.noConfusion hcontra

/-- Witness for C8: a store returning an empty id list produces the 500 whose
detail names the missing ids, never the success message. -/
theorem add_memory_no_ids_is_500_witness :
    add_memory (fun _ _ => Except.ok []) ⟨"u1", "hello"⟩ =
      Except.error ⟨500,
        "Error processing memory event: 500: Error adding/updating memory: mem0 returned no ids"⟩ ∧
    List.IsInfix "mem0 returned no ids".toList
      "Error processing memory event: 500: Error adding/updating memory: mem0 returned no ids".toList ∧
    ∀ resp, add_memory (fun _ _ => Except.ok []) ⟨"u1", "hello"⟩ ≠ Except.ok resp :=
  add_memory_no_ids_is_500 (fun _ _ => Except.ok []) ⟨"u1", "hello"⟩ rfl

/-! ## The prompt template -/

/-- String append concatenates the character lists. -/
theorem string_toList_append (s t : String) : (s ++ t).toList = s.toList ++ t.toList := rfl

set_option maxRecDepth 4000 in
/-- The fixed template text decomposes around the four instruction sentences
the spec singles out: the UTC date format, the `present` end marker for a null
`updated_at`, the exclusion of relations, and the omission of empty FACTS and
ENTITIES sections. -/
theorem promptHead_decomp :
    promptHead = promptChunk0 ++ needleDateFormat ++ promptChunk1 ++ needlePresent
      ++ promptChunk2 ++ needleNoRelations ++ promptChunk3 ++ needleOmitEmpty
      ++ promptChunk4 := rfl

/-- The character list of the whole prompt, right-associated around the
serialized data and the four instruction sentences. -/
theorem mkPrompt_toList (s : String) :
    (mkPrompt s).toList =
      promptChunk0.toList ++ (needleDateFormat.toList ++ (promptChunk1.toList
        ++ (needlePresent.toList ++ (promptChunk2.toList ++ (needleNoRelations.toList
        ++ (promptChunk3.toList ++ (needleOmitEmpty.toList ++ (promptChunk4.toList
        ++ (s.toList ++ promptTail.toList))))))))) := by
  simp only [mkPrompt, promptHead_decomp, string_toList_append, List.append_assoc]

/-- A segment of a right-associated concatenation is an infix. -/
theorem isInfix_middle {α : Type} (A n B : List α) : List.IsInfix n (A ++ (n ++ B)) :=
  ⟨A, B, List.append_assoc A n B⟩

/-- An infix of a list is an infix of any left-extension of it. -/
theorem isInfix_append_left {α : Type} (x : List α) {n l : List α}
    (h : List.IsInfix n l) : List.IsInfix n (x ++ l) := by
  obtain ⟨s, t, rfl⟩ := h
  exact ⟨x ++ s, t, by simp [List.append_assoc]⟩

/-- C6: the prompt built by `create_prompt_context` is the fixed instruction
template with the bundle's serialized textual representation (`str(data)`)
embedded verbatim: the serialization is an infix of the prompt, and the
remainder is the constant `promptHead` before it and the constant
`promptTail` after it, neither depending on the bundle. -/
theorem create_prompt_context_embeds_data (data : Bundle) :
    mkPrompt (pyReprDict data) = promptHead ++ pyReprDict data ++ promptTail ∧
    List.IsInfix (pyReprDict data).toList (mkPrompt (pyReprDict data)).toList := by
  refine ⟨rfl, ⟨promptHead.toList, promptTail.toList, ?_⟩⟩
  simp only [mkPrompt, string_toList_append]

/-- C7: for every bundle, the fixed template part of the prompt contains,
verbatim, the instruction sentences for each required output rule: the UTC
date boundary format `YYYY-MM-DDTHH:MM:SS+00:00`, the literal end marker
`present` when `updated_at` is null, the ban on relation data in the output,
and the omission of the FACTS and ENTITIES sections when they have no items. -/
theorem prompt_template_output_rules (data : Bundle) :
    List.IsInfix needleDateFormat.toList (mkPrompt (pyReprDict data)).toList ∧
    List.IsInfix needlePresent.toList (mkPrompt (pyReprDict data)).toList ∧
    List.IsInfix needleNoRelations.toList (mkPrompt (pyReprDict data)).toList ∧
    List.IsInfix needleOmitEmpty.toList (mkPrompt (pyReprDict data)).toList := by
  refine ⟨?_, ?_, ?_, ?_⟩ <;> rw [mkPrompt_toList]
  · exact isInfix_middle _ _ _
  · exact isInfix_append_left _ (isInfix_append_left _ (isInfix_middle _ _ _))
  · exact isInfix_append_left _ (isInfix_append_left _ (isInfix_append_left _
      (isInfix_append_left _ (isInfix_middle _ _ _))))
  · exact isInfix_append_left _ (isInfix_append_left _ (isInfix_append_left _
      (isInfix_append_left _ (isInfix_append_left _ (isInfix_append_left _
        (isInfix_middle _ _ _))))))
